import Mathlib

/-!
Verification of the asynchronous response-dispatch pipeline of the support
assistant backend: the response generator (`auto_responder.py`), the priority
job queue (`priority_queue.py`), the dispatch worker (`queue_worker.py`), the
event broadcaster (`core/events.py`) and the discovery poller
(`background_fetcher.py`).  Python values are embedded shallowly: strings stay
`String` (operated on through their character lists, matching Python's
character-based slicing), timestamps are `Nat`, database rows are records in an
association list keyed by id, and each network/provider interaction is an
explicit scripted outcome.
-/

set_option maxHeartbeats 1000000
set_option linter.unusedVariables false

namespace Spec2Proof

/-! ### Python string primitives

Python string operations used by the sources, modelled over the character
list of a `String` (Python slicing, `len`, `in`, `.lower()`, `.strip()` are
all character-based). -/

/-- Python `s.lower()` (ASCII-adequate model via `Char.toLower`). -/
def pyLower (s : String) : String := ⟨s.data.map Char.toLower⟩

/-- Python `len(s)` (number of characters). -/
def pyLen (s : String) : Nat := s.data.length

/-- Python `s[:n]` (first `n` characters). -/
def pyTake (s : String) (n : Nat) : String := ⟨s.data.take n⟩

/-- `startsWithL s pat`: `pat` is an initial segment of `s`. -/
def startsWithL : List Char → List Char → Bool
  | _, [] => true
  | [], _ :: _ => false
  | c :: cs, p :: ps => c == p && startsWithL cs ps

/-- `containsL pat s`: `pat` occurs contiguously in `s`. -/
def containsL (pat : List Char) : List Char → Bool
  | [] => startsWithL [] pat
  | c :: cs => startsWithL (c :: cs) pat || containsL pat cs

/-- Python `pat in s`. -/
def pyContains (s pat : String) : Bool := containsL pat.data s.data

/-- Python `s.strip()` (drop whitespace from both ends). -/
def pyStrip (s : String) : String :=
  ⟨((s.data.dropWhile Char.isWhitespace).reverse.dropWhile Char.isWhitespace).reverse⟩

/-- First element of Python `s.splitlines()` (empty when the string is
empty); used by `_build_local_fallback` after a `strip()`. -/
def firstLineOf (s : String) : String :=
  ⟨s.data.takeWhile (fun c => !(c == '\n' || c == '\r'))⟩

/-- Python truthiness of an optional string (`None` and `''` are falsy). -/
def pyTruthyOpt : Option String → Bool
  | none => false
  | some s => s ≠ ""

/-! ### `auto_responder.py` — the Response Generator -/

/-- `_local_fallback_reply(subject, body, sentiment, priority)`
(`auto_responder.py` lines 74–83).  The `sentiment` argument is accepted but
unused, exactly as in the source. -/
def localFallbackReply (subject body sentiment priority : String) : String :=
  let summary := if pyLen body > 240 then pyTake body 240 ++ "..." else body
  let intro :=
    if pyContains (pyLower body) "password" then
      "Thanks for reaching out about your password issue."
    else "Thank you for contacting support."
  let action :=
    if priority == "Urgent" then
      "We\x27re treating this as high priority and will update you ASAP."
    else "We\x27ll investigate and get back to you shortly."
  "Subject: Re: " ++ subject ++ "\n\n" ++ intro ++ "\n\nI reviewed your message: \n"
    ++ summary ++ "\n\n" ++ action ++ "\n\nKind regards,\nSupport Team"

/-- Environment-style configuration read by the generator (presence booleans
for credentials, `'1'`-valued flags, numeric windows in seconds). -/
structure GenEnv where
  /-- `LLM_PROVIDER` (the code lowercases it before comparing). -/
  llmProvider : String := "gemini"
  /-- `GEMINI_FORCE_DISABLE == '1'`. -/
  geminiForceDisable : Bool := false
  /-- the `google.generativeai` import succeeded. -/
  geminiAvailable : Bool := true
  /-- `GOOGLE_API_KEY` is set (presence only). -/
  googleApiKey : Bool := false
  /-- `FALLBACK_LOCAL_REPLY` (default `'1'`). -/
  fallbackLocalReply : Bool := true
  /-- `OPENROUTER_FORCE_DISABLE == '1'`. -/
  openrouterForceDisable : Bool := false
  /-- `OPENROUTER_API_KEY` is set (presence only). -/
  openrouterApiKey : Bool := false
  /-- `CHAIN_FALLBACK_GEMINI` (default `'1'`). -/
  chainFallbackGemini : Bool := true
  /-- `GEMINI_BACKOFF_SECONDS` (default 600). -/
  geminiBackoffSeconds : Nat := 600
  /-- `OPENROUTER_COOLDOWN_S` (default 60). -/
  openrouterCooldownS : Nat := 60
deriving Repr, DecidableEq

/-- The `LAST_GEMINI_ERROR` diagnostic slot (error type name and timestamp). -/
structure GeminiErrState where
  errorType : String
  ts : Nat
deriving Repr, DecidableEq

/-- Simulated outcome of one `model.generate_content` call: a timeout of the
future, an extracted text (possibly empty), or a raised exception. -/
inductive GeminiOutcome
  | timeout
  | text (t : String)
  | exn (errorType : String)
deriving Repr, DecidableEq

/-- `_generate_gemini` (`auto_responder.py` lines 93–148): force-disable,
availability/credential check, quota-backoff window, then the scripted call.
Always returns a string (the Python function catches every exception). -/
def generateGemini (env : GenEnv) (lastErr : Option GeminiErrState) (now : Nat)
    (outcome : GeminiOutcome) (subject body sentiment priority : String) : String :=
  if env.geminiForceDisable then localFallbackReply subject body sentiment priority
  else if !env.geminiAvailable || !env.googleApiKey then "[GEMINI_UNAVAILABLE]"
  else if (match lastErr with
           | some e => e.errorType == "ResourceExhausted" && now - e.ts < env.geminiBackoffSeconds
           | none => false) then
    if env.fallbackLocalReply then localFallbackReply subject body sentiment priority
    else "[GEMINI_QUOTA_BACKOFF]"
  else
    match outcome with
    | .timeout =>
        if env.fallbackLocalReply then localFallbackReply subject body sentiment priority
        else "[GEMINI_TIMEOUT]"
    | .text t =>
        let txt := pyStrip t
        if txt ≠ "" then txt
        else if env.fallbackLocalReply then localFallbackReply subject body sentiment priority
        else "[GEMINI_EMPTY]"
    | .exn _ =>
        if env.fallbackLocalReply then localFallbackReply subject body sentiment priority
        else "[GEMINI_ERROR]"

/-- One scripted network interaction for an OpenRouter HTTP request: either a
response (status, extracted message content) or a client timeout. -/
inductive NetEvent
  | resp (status : Nat) (content : String)
  | timeout
deriving Repr, DecidableEq

/-- The errors `_openrouter_call` / `_generate_openrouter` can raise, by the
shape of the raised message. -/
inductive OrErr
  /-- `RuntimeError('missing OPENROUTER_API_KEY')`. -/
  | missingKey
  /-- `RuntimeError('or_http_429_cooldown')` — raised while the cooldown
  window is active, before any network request. -/
  | cooldownActive
  /-- `RuntimeError('or_http_429: cooldown')` — second 429 within one call. -/
  | rateLimitedTwice
  /-- `RuntimeError('or_http_<status>: ...')` for a status `≥ 400` (3-digit
  HTTP status; never 429, which is handled separately). -/
  | httpErr (status : Nat)
  /-- an `httpx` timeout exception. -/
  | netTimeout
deriving Repr, DecidableEq

/-- The transiency test of `_generate_openrouter` line 318: the lowercased
message contains `'or_http_429'`, `'or_http_429_cooldown'`, `'timeout'` or
`'or_http_5'`.  For a 3-digit HTTP status, containing `'or_http_5'` means the
status is 5xx. -/
def OrErr.isTransient : OrErr → Bool
  | .cooldownActive => true
  | .rateLimitedTwice => true
  | .netTimeout => true
  | .httpErr s => s / 100 == 5
  | .missingKey => false

/-- The module-level OpenRouter rate-limit state (`_or_cooldown_until`). -/
structure ORState where
  cooldownUntil : Nat := 0
deriving Repr, DecidableEq

instance {ε α : Type} [DecidableEq ε] [DecidableEq α] : DecidableEq (Except ε α) := fun a b =>
  match a, b with
  | .ok x, .ok y =>
      if h : x = y then isTrue (by rw [h]) else isFalse (by intro hc; cases hc; exact h rfl)
  | .error x, .error y =>
      if h : x = y then isTrue (by rw [h]) else isFalse (by intro hc; cases hc; exact h rfl)
  | .ok _, .error _ => isFalse (by intro hc; cases hc)
  | .error _, .ok _ => isFalse (by intro hc; cases hc)

/-- Result of one `_openrouter_call`: the returned content or raised error,
the updated rate-limit state, the unconsumed remainder of the network script,
and the number of HTTP requests actually issued. -/
structure ORCallResult where
  result : Except OrErr String
  st : ORState
  script : List NetEvent
  networkCalls : Nat
deriving Repr, DecidableEq

/-- The retry loop inside `_openrouter_call` (lines 196–248).  `attempts` is
the number of the current attempt (1-based, as in the source); a first 429
backs off and retries, a 429 at `attempts ≥ 2` sets the cooldown window to
`now + max 5 OPENROUTER_COOLDOWN_S` and raises; any other status `≥ 400`
raises; otherwise the (possibly empty) content is returned.  An exhausted
script stands for a request that never got a response, i.e. a timeout. -/
def orLoop (env : GenEnv) (st : ORState) (now : Nat) (attempts : Nat) :
    List NetEvent → ORCallResult
  | [] => ⟨.error .netTimeout, st, [], 1⟩
  | .timeout :: rest => ⟨.error .netTimeout, st, rest, 1⟩
  | .resp status content :: rest =>
      if status == 429 then
        if attempts ≥ 2 then
          ⟨.error .rateLimitedTwice, ⟨now + max 5 env.openrouterCooldownS⟩, rest, 1⟩
        else
          let r := orLoop env st now (attempts + 1) rest
          { r with networkCalls := r.networkCalls + 1 }
      else if status ≥ 400 then ⟨.error (.httpErr status), st, rest, 1⟩
      else ⟨.ok content, st, rest, 1⟩

/-- `_openrouter_call` (lines 150–248): missing-credential check, cooldown
short-circuit (no network request), then the request loop.  The prompt
argument does not influence the scripted network behaviour and is omitted. -/
def openrouterCall (env : GenEnv) (st : ORState) (now : Nat)
    (script : List NetEvent) : ORCallResult :=
  if !env.openrouterApiKey then ⟨.error .missingKey, st, script, 0⟩
  else if now < st.cooldownUntil then ⟨.error .cooldownActive, st, script, 0⟩
  else orLoop env st now 1 script

/-- Result of `generate_response`: `.ok` is a returned string, `.error` is an
exception propagated to the caller. -/
structure GenResult where
  result : Except OrErr String
  st : ORState
  networkCalls : Nat
deriving Repr, DecidableEq

/-- Lines 328–333 of `_generate_openrouter`: handling of a caught
non-transient error — optional chained Gemini fallback, then the local
template or the `[OPENROUTER_ERROR]` sentinel. -/
def orCaughtFallback (env : GenEnv) (lastGem : Option GeminiErrState)
    (gemOutcome : GeminiOutcome) (now : Nat)
    (subject body sentiment priority : String) : String :=
  if env.chainFallbackGemini && env.googleApiKey && env.geminiAvailable then
    generateGemini env lastGem now gemOutcome subject body sentiment priority
  else if env.fallbackLocalReply then localFallbackReply subject body sentiment priority
  else "[OPENROUTER_ERROR]"

/-- Lines 308–314 of `_generate_openrouter`: last resort after two empty
replies — optional chained Gemini fallback, then the local template
(unconditionally, not gated on `FALLBACK_LOCAL_REPLY`). -/
def orEmptyLastResort (env : GenEnv) (lastGem : Option GeminiErrState)
    (gemOutcome : GeminiOutcome) (now : Nat)
    (subject body sentiment priority : String) : String :=
  if env.chainFallbackGemini && env.googleApiKey && env.geminiAvailable then
    generateGemini env lastGem now gemOutcome subject body sentiment priority
  else localFallbackReply subject body sentiment priority

/-- The inner `try` of `_generate_openrouter` (lines 267–281): the first
`_openrouter_call` with one in-process retry on a 402 (truncated prompt,
lowered `max_tokens`); any error of the retry propagates. -/
def orAfterFirst (env : GenEnv) (st : ORState) (now : Nat)
    (script : List NetEvent) : ORCallResult :=
  let r1 := openrouterCall env st now script
  match r1.result with
  | .error (.httpErr 402) =>
      let r2 := openrouterCall env r1.st now r1.script
      { r2 with networkCalls := r1.networkCalls + r2.networkCalls }
  | _ => r1

/-- Lines 282–333 of `_generate_openrouter`: interpret the outcome of the
first call (after the 402 retry) — non-empty reply returned stripped;
empty reply retried once with a stricter prompt, then last-resort fallback;
any caught error re-raised when transient, otherwise converted to the
chained/local fallback. -/
def orHandleFirst (env : GenEnv) (lastGem : Option GeminiErrState)
    (gemOutcome : GeminiOutcome) (now : Nat)
    (subject body sentiment priority : String) (a : ORCallResult) : GenResult :=
  match a.result with
  | .error e =>
      if e.isTransient then ⟨.error e, a.st, a.networkCalls⟩
      else
        ⟨.ok (orCaughtFallback env lastGem gemOutcome now subject body sentiment priority),
          a.st, a.networkCalls⟩
  | .ok reply =>
      if pyStrip reply ≠ "" then ⟨.ok (pyStrip reply), a.st, a.networkCalls⟩
      else
        -- empty output: retry once with a stricter prompt (lines 284–307)
        let r3 := openrouterCall env a.st now a.script
        let calls := a.networkCalls + r3.networkCalls
        match r3.result with
        | .error e =>
            if e.isTransient then ⟨.error e, r3.st, calls⟩
            else
              ⟨.ok (orCaughtFallback env lastGem gemOutcome now subject body sentiment priority),
                r3.st, calls⟩
        | .ok rr =>
            if pyStrip rr ≠ "" then ⟨.ok (pyStrip rr), r3.st, calls⟩
            else
              ⟨.ok (orEmptyLastResort env lastGem gemOutcome now subject body sentiment priority),
                r3.st, calls⟩

/-- `_generate_openrouter` (lines 250–333).  Force-disable and missing-key
short-circuits, first call with one in-process retry on a 402, empty-output
retry, chained fallback, and the outer handler that re-raises transient
errors (429, cooldown, timeout, 5xx) so the queue worker can re-enqueue. -/
def generateOpenrouter (env : GenEnv) (st : ORState)
    (lastGem : Option GeminiErrState) (gemOutcome : GeminiOutcome) (now : Nat)
    (script : List NetEvent) (subject body sentiment priority : String) : GenResult :=
  if env.openrouterForceDisable then
    ⟨.ok (localFallbackReply subject body sentiment priority), st, 0⟩
  else if !env.openrouterApiKey then ⟨.ok "[OPENROUTER_UNAVAILABLE]", st, 0⟩
  else
    orHandleFirst env lastGem gemOutcome now subject body sentiment priority
      (orAfterFirst env st now script)

/-- `generate_response(subject, body, sentiment, priority, rag_results)`
(lines 85–91): dispatch on `LLM_PROVIDER` — `openrouter`/`or` goes to the
OpenRouter path, everything else to the Gemini path.  `networkCalls` counts
OpenRouter HTTP requests. -/
def generateResponse (env : GenEnv) (st : ORState)
    (lastGem : Option GeminiErrState) (gemOutcome : GeminiOutcome) (now : Nat)
    (script : List NetEvent) (subject body sentiment priority : String) : GenResult :=
  if env.llmProvider == "openrouter" || env.llmProvider == "or" then
    generateOpenrouter env st lastGem gemOutcome now script subject body sentiment priority
  else
    ⟨.ok (generateGemini env lastGem now gemOutcome subject body sentiment priority), st, 0⟩

/-! ### `priority_queue.py` — the Priority Job Queue

`EmailPriorityQueue` wraps a Python `heapq` min-heap of `PrioritizedEmail`
records whose ordering (from `@dataclass(order=True)` with `compare=False` on
`email_id` and `data`) compares `priority_rank` only.  The heap algorithms
below are the CPython `heapq` reference implementations (`heappush`,
`heappop`, `_siftdown`, `_siftup`) transcribed over a `List`, with reads and
writes through `hget`/`List.set` (all indices used are in bounds, so the
`getD` default is never observed on reachable states). -/

structure PrioritizedEmail where
  priority_rank : Nat
  email_id : Nat
  data : Option String := none
deriving Repr, DecidableEq

/-- The `<` of `PrioritizedEmail`: only `priority_rank` is compared. -/
def peLt (a b : PrioritizedEmail) : Bool := a.priority_rank < b.priority_rank

/-- List read `heap[i]` (in-bounds at every use on reachable states). -/
def hget (l : List PrioritizedEmail) (i : Nat) : PrioritizedEmail :=
  l.getD i ⟨0, 0, none⟩

/-- Parent index `(pos - 1) >> 1` of the binary heap. -/
def parentIdx (i : Nat) : Nat := (i - 1) / 2

/-- CPython `heapq._siftdown(heap, startpos, pos)` with the moving `newitem`
made explicit (the source reads it from `heap[pos]` once at entry and writes
it back at exit); `parent := heap[parentpos]` is inlined. -/
def siftdown (l : List PrioritizedEmail) (newitem : PrioritizedEmail)
    (startpos pos : Nat) : List PrioritizedEmail :=
  if h : startpos < pos then
    if peLt newitem (hget l (parentIdx pos)) then
      siftdown (l.set pos (hget l (parentIdx pos))) newitem startpos (parentIdx pos)
    else l.set pos newitem
  else l.set pos newitem
termination_by pos
decreasing_by
  simp only [parentIdx]
  omega

/-- The child `_siftup` moves into the hole at `pos`: the right child when
it exists and `not heap[childpos] < heap[rightpos]`, else the left child. -/
def minChild (l : List PrioritizedEmail) (pos : Nat) : Nat :=
  if 2 * pos + 2 < l.length && !(peLt (hget l (2 * pos + 1)) (hget l (2 * pos + 2))) then
    2 * pos + 2
  else 2 * pos + 1

/-- CPython `heapq._siftup(heap, pos)` generalised over `startpos` (the
source fixes `startpos := pos`; all callers here use `0`): bubble the hole at
`pos` down along the smaller-child chain, place `newitem` in the resulting
leaf and let `_siftdown` move it back up.  `endpos = len(heap)` is recomputed
(the length never changes). -/
def siftup (l : List PrioritizedEmail) (newitem : PrioritizedEmail)
    (startpos pos : Nat) : List PrioritizedEmail :=
  if h : 2 * pos + 1 < l.length then
    siftup (l.set pos (hget l (minChild l pos))) newitem startpos (minChild l pos)
  else siftdown (l.set pos newitem) newitem startpos pos
termination_by l.length - pos
decreasing_by
  simp only [List.length_set, minChild]
  split <;> omega

/-- CPython `heapq.heappush`. -/
def heappush (l : List PrioritizedEmail) (item : PrioritizedEmail) :
    List PrioritizedEmail :=
  siftdown (l ++ [item]) item 0 l.length

/-- CPython `heapq.heappop` guarded by the emptiness check which
`EmailPriorityQueue.pop` performs before calling it. -/
def heappop (l : List PrioritizedEmail) :
    Option (PrioritizedEmail × List PrioritizedEmail) :=
  match l with
  | [] => none
  | _ :: _ =>
      let lastelt := hget l (l.length - 1)
      let rest := l.dropLast
      if rest.isEmpty then some (lastelt, [])
      else some (hget rest 0, siftup (rest.set 0 lastelt) lastelt 0 0)

/-- `EmailPriorityQueue.push`: rank 0 for the `'Urgent'` urgency label and
rank 1 for every other label. -/
def rankOf (urgency : String) : Nat := if urgency == "Urgent" then 0 else 1

structure EmailPriorityQueue where
  heap : List PrioritizedEmail := []
deriving Repr, DecidableEq

def EmailPriorityQueue.push (q : EmailPriorityQueue) (email_id : Nat)
    (urgency : String) (data : Option String := none) : EmailPriorityQueue :=
  ⟨heappush q.heap ⟨rankOf urgency, email_id, data⟩⟩

def EmailPriorityQueue.pop (q : EmailPriorityQueue) :
    Option (PrioritizedEmail × EmailPriorityQueue) :=
  (heappop q.heap).map (fun r => (r.1, ⟨r.2⟩))

/-! ### `email_service.py` / `email_model.py` — the Message Store -/

/-- A row of the `emails` table (the datetime columns are `Nat` timestamps;
`approved_at`/`sent_at` are omitted: the pipeline under verification never
touches them). -/
structure Email where
  id : Nat
  sender : String
  subject : String
  body : String
  received_at : Nat
  sentiment : String
  priority : String
  auto_response : Option String
  status : String
  source : String
  external_id : Option String
deriving Repr, DecidableEq

/-- `get_email(db, email_id)`: first row with the given id. -/
def get_email (store : List Email) (email_id : Nat) : Option Email :=
  store.find? (fun e => e.id == email_id)

/-- `save_auto_response(db, email, text, mark_responded=False)`: set the
row's `auto_response`; set `status` to `'responded'` only when
`mark_responded` is passed. -/
def save_auto_response (store : List Email) (email_id : Nat) (text : String)
    (mark_responded : Bool := false) : List Email :=
  store.map (fun e =>
    if e.id == email_id then
      { e with auto_response := some text,
               status := if mark_responded then "responded" else e.status }
    else e)

/-- `email_exists(db, sender, subject, received_at)`. -/
def email_exists (store : List Email) (sender subject : String)
    (received_at : Nat) : Bool :=
  store.any (fun e =>
    e.sender == sender && e.subject == subject && e.received_at == received_at)

/-- `email_exists_external(db, external_id)`. -/
def email_exists_external (store : List Email) (external_id : String) : Bool :=
  store.any (fun e => e.external_id == some external_id)

/-- `create_email(db, payload, sentiment, priority, auto_response, source,
external_id)`: append a new row with `status='pending'` and the next
auto-increment id. -/
def create_email (store : List Email) (nextId : Nat)
    (sender subject body : String) (received_at : Nat)
    (sentiment priority : String) (auto_response : Option String)
    (source : String) (external_id : Option String) : List Email :=
  store ++ [{ id := nextId, sender := sender, subject := subject, body := body,
              received_at := received_at, sentiment := sentiment,
              priority := priority, auto_response := auto_response,
              status := "pending", source := source, external_id := external_id }]

/-! ### `queue_worker.py` — the Dispatch Worker -/

def MAX_ATTEMPTS_PER_EMAIL : Nat := 3

/-- The `_attempt_counts` dict, modelled as its observable content: the code
only ever reads it through `dict.get(id, 0)`, so a missing key and a stored 0
are indistinguishable and the table is a total map with default 0. -/
def AttemptTable : Type := Nat → Nat

/-- `_attempt_counts.get(id, 0)`. -/
def attGet (a : AttemptTable) (email_id : Nat) : Nat := a email_id

/-- `_attempt_counts[id] = n`. -/
def attSet (a : AttemptTable) (email_id n : Nat) : AttemptTable :=
  fun x => if x = email_id then n else a x

/-- `_attempt_counts.pop(id, None)` (the key reads as absent, i.e. 0). -/
def attDel (a : AttemptTable) (email_id : Nat) : AttemptTable :=
  fun x => if x = email_id then 0 else a x

/-- `_build_local_fallback(subject, body)` (`queue_worker.py` lines 129–141):
first line of the stripped body, truncated to 120 characters, wrapped in a
fixed template. -/
def buildLocalFallback (subject body : String) : String :=
  let t := pyStrip body
  let snippet0 := firstLineOf t
  let snippet := if pyLen snippet0 > 120 then pyTake snippet0 120 ++ "…" else snippet0
  "Hi,\n\nThanks for your message. We’re looking into this and will get back with a detailed update soon.\n\n"
    ++ "Subject: " ++ (if subject == "" then "Your request" else subject) ++ "\n"
    ++ "Summary: " ++ snippet ++ "\n\nBest regards,\nSupport Team"

/-- The `email_updated` payload the worker publishes:
`'\x7b"id":<id>,"status":"responded"\x7d'`. -/
def workerEventPayload (email_id : Nat) : String :=
  "\x7b\"id\":" ++ Nat.repr email_id ++ ",\"status\":\"responded\"\x7d"

/-- State shared by the worker loop: the job queue, the message store, the
`_attempt_counts` table, the log of broadcaster publishes
(event name, data payload), and a ghost log of every `_queue.push` the worker
itself performs (used to state that a message is never re-enqueued). -/
structure WorkerState where
  queue : EmailPriorityQueue
  store : List Email
  attempts : AttemptTable
  events : List (String × String)
  pushLog : List (Nat × String)

/-- The shared failure path of `_worker_loop` (lines 44–74 for a generator
exception, lines 85–110 for an empty result — the two blocks perform the
same state changes and differ only in the sleep length): bump the attempt
count; at the ceiling persist `_build_local_fallback`, publish, and clear the
record; below it re-push the job at `email.priority or 'Not urgent'`. -/
def failurePath (st : WorkerState) (email : Email) : WorkerState :=
  if attGet st.attempts email.id + 1 ≥ MAX_ATTEMPTS_PER_EMAIL then
    -- ceiling reached: persist the (always non-empty) local fallback,
    -- publish, clear the record, no re-push
    { st with
        store :=
          if buildLocalFallback email.subject email.body ≠ "" then
            save_auto_response st.store email.id
              (buildLocalFallback email.subject email.body)
          else st.store,
        events :=
          if buildLocalFallback email.subject email.body ≠ "" then
            st.events ++ [("email_updated", workerEventPayload email.id)]
          else st.events,
        attempts :=
          attDel (attSet st.attempts email.id (attGet st.attempts email.id + 1)) email.id }
  else
    -- below the ceiling: record the count and re-push at the message's own
    -- priority (`email.priority or 'Not urgent'`)
    { st with
        attempts := attSet st.attempts email.id (attGet st.attempts email.id + 1),
        queue := st.queue.push email.id
          (if email.priority == "" then "Not urgent" else email.priority),
        pushLog := st.pushLog ++
          [(email.id, if email.priority == "" then "Not urgent" else email.priority)] }

/-- One iteration of `_worker_loop` (lines 26–112).  `genOut` is the outcome
of the `generate_response` call for this iteration: `.ok text` for a
returned string, `.error ()` for a raised exception.  An empty queue is the
idle-wait iteration.  The `if email.auto_response:` guard is Python
truthiness: `None` and `''` are both falsy, so only a non-empty stored
response skips the job.  The source keys the attempt table and the re-push
by `item.email_id` and the store write by `email.id`; the two are equal
because `get_email` matched the row on `item.email_id`, and the model uses
`email.id` throughout. -/
def workerStep (st : WorkerState) (genOut : Except Unit String) : WorkerState :=
  match st.queue.pop with
  | none => st
  | some (item, q') =>
    match get_email st.store item.email_id with
    | none => { st with queue := q' }
    | some email =>
      if pyTruthyOpt email.auto_response then { st with queue := q' }
      else
        match genOut with
        | .error _ => failurePath { st with queue := q' } email
        | .ok auto_resp =>
            if pyStrip auto_resp ≠ "" then
              { st with queue := q',
                        store := save_auto_response st.store email.id auto_resp,
                        events := st.events ++ [("email_updated", workerEventPayload email.id)],
                        attempts := attDel st.attempts email.id }
            else failurePath { st with queue := q' } email

/-- Run the worker for a list of per-iteration generator outcomes. -/
def runWorker (st : WorkerState) (gens : List (Except Unit String)) : WorkerState :=
  gens.foldl workerStep st

/-- `enqueue_email(email_id, priority)` — the producer-side push into the
shared queue (poller and API callers). -/
def enqueueEmail (st : WorkerState) (email_id : Nat) (priority : String) : WorkerState :=
  { st with queue := st.queue.push email_id priority }

/-- Worker states reachable from a start state with an empty attempt table,
under worker iterations and concurrent producer pushes. -/
inductive WReachable : WorkerState → Prop
  | init (queue : EmailPriorityQueue) (store : List Email) :
      WReachable ⟨queue, store, fun _ => 0, [], []⟩
  | step {st : WorkerState} (g : Except Unit String) :
      WReachable st → WReachable (workerStep st g)
  | enqueue {st : WorkerState} (email_id : Nat) (priority : String) :
      WReachable st → WReachable (enqueueEmail st email_id priority)

/-! ### `core/events.py` — the Event Broadcaster -/

/-- An `asyncio.Queue` channel: `maxsize` as passed to the constructor
(`asyncio.Queue()` uses `0`, which means *infinite* capacity) and the
buffered payloads. -/
structure Channel where
  maxsize : Nat := 0
  buf : List String := []
deriving Repr, DecidableEq

/-- `asyncio.Queue.full()`: `False` whenever `maxsize ≤ 0`, else
`qsize() ≥ maxsize`. -/
def Channel.isFull (c : Channel) : Bool := 0 < c.maxsize && c.maxsize ≤ c.buf.length

/-- A channel is bounded when its capacity is finite, i.e. `maxsize > 0`. -/
def Channel.isBounded (c : Channel) : Bool := 0 < c.maxsize

/-- The wire framing of `EventBroadcaster.publish`:
`f"event: {event}\ndata: {data}\n\n"`. -/
def sseFrame (event data : String) : String :=
  "event: " ++ event ++ "\ndata: " ++ data ++ "\n\n"

/-- The broadcaster registry: the set of subscriber channels (as a list; the
source iterates over a `set`). -/
structure EventBroadcaster where
  queues : List Channel := []
deriving Repr, DecidableEq

/-- The channel `subscribe` creates: `q = asyncio.Queue()`. -/
def EventBroadcaster.newChannel : Channel := {}

/-- Registration performed by `subscribe`. -/
def EventBroadcaster.subscribe (b : EventBroadcaster) : EventBroadcaster :=
  ⟨b.queues ++ [EventBroadcaster.newChannel]⟩

/-- `publish(event, data)`: frame the payload and `put_nowait` it on every
registered channel that is not full; a full channel is silently skipped. -/
def EventBroadcaster.publish (b : EventBroadcaster) (event data : String) :
    EventBroadcaster :=
  let payload := sseFrame event data
  ⟨b.queues.map (fun q => if q.isFull then q else { q with buf := q.buf ++ [payload] })⟩

/-! ### `nlp.py` / `background_fetcher.py` — the Discovery Poller -/

def PRIORITY_HINTS : List String :=
  ["immediately", "critical", "cannot access", "urgent", "down", "failure"]

/-- `determine_priority(text)`: `'Urgent'` iff the lowercased text contains a
priority hint. -/
def determine_priority (text : String) : String :=
  let lowered := pyLower text
  if PRIORITY_HINTS.any (fun w => pyContains lowered w) then "Urgent" else "Not urgent"

/-- One raw message returned by `fetch_any` (the External Source Connector).
`received_at` is the value `_coerce_received` produced; `external_id` is the
provider-native identifier when present (`m.get('external_id')`). -/
structure RawMail where
  sender : String
  subject : String
  body : String
  received_at : Nat
  external_id : Option String
deriving Repr, DecidableEq

/-- State the discovery loop mutates: the store, the auto-increment id
counter, and the shared job queue it enqueues into. -/
structure FetchState where
  store : List Email
  nextId : Nat
  queue : EmailPriorityQueue
deriving Repr, DecidableEq

/-- The per-message body of `_loop` (`background_fetcher.py` lines 45–65):
classify, dedupe (by truthy external id when present, else by exact
(sender, subject, received_at) match), persist with no response, enqueue at
the message's priority.  `classify` is the external sentiment classifier
(`analyze_sentiment` uses the TextBlob collaborator). -/
def processMail (classify : String → String) (provider : String)
    (st : FetchState) (m : RawMail) : FetchState :=
  let sentiment := classify m.body
  let priority := determine_priority m.body
  if pyTruthyOpt m.external_id && email_exists_external st.store (m.external_id.getD "") then st
  else if !(pyTruthyOpt m.external_id) && email_exists st.store m.sender m.subject m.received_at then st
  else
    { store := create_email st.store st.nextId m.sender m.subject m.body m.received_at
        sentiment priority none provider m.external_id,
      nextId := st.nextId + 1,
      queue := st.queue.push st.nextId priority }

/-- One discovery cycle over the batch returned by `fetch_any`. -/
def runCycle (classify : String → String) (provider : String)
    (st : FetchState) (mails : List RawMail) : FetchState :=
  mails.foldl (processMail classify provider) st

/-- Number of stored rows carrying a given external id. -/
def countExternal (store : List Email) (ext : String) : Nat :=
  store.countP (fun e => e.external_id == some ext)

/-! ## Theorems -/

/-- C8: the local fallback template is a pure total function of
(subject, body, priority) — the `sentiment` argument never influences the
result, equal inputs give identical text — and with the Gemini provider
force-disabled and local fallback enabled,
`generate("Q","body","Neutral","Not urgent",[])` returns the deterministic
template, which is non-empty and contains the subject `"Q"`. -/
theorem local_template_pure_total_and_scenario :
    (∀ s b se₁ se₂ p, localFallbackReply s b se₁ p = localFallbackReply s b se₂ p) ∧
    (∀ (env : GenEnv) (st : ORState) (lg : Option GeminiErrState)
       (go : GeminiOutcome) (now : Nat) (script : List NetEvent),
       env.llmProvider = "gemini" → env.geminiForceDisable = true →
       generateResponse env st lg go now script "Q" "body" "Neutral" "Not urgent" =
         ⟨.ok (localFallbackReply "Q" "body" "Neutral" "Not urgent"), st, 0⟩) ∧
    localFallbackReply "Q" "body" "Neutral" "Not urgent" ≠ "" ∧
    pyContains (localFallbackReply "Q" "body" "Neutral" "Not urgent") "Q" = true := by
  refine ⟨fun s b se₁ se₂ p => rfl, ?_, by decide, by decide⟩
  intro env st lg go now script hprov hdis
  simp [generateResponse, generateGemini, hprov, hdis]

/-- C8 witness: the scenario instantiated at a concrete environment. -/
theorem local_template_scenario_witness :
    generateResponse { geminiForceDisable := true } ⟨0⟩ none (.text "x") 0 []
        "Q" "body" "Neutral" "Not urgent" =
      ⟨.ok (localFallbackReply "Q" "body" "Neutral" "Not urgent"), ⟨0⟩, 0⟩ :=
  local_template_pure_total_and_scenario.2.1
    { geminiForceDisable := true } ⟨0⟩ none (.text "x") 0 [] rfl rfl

/-- C7 counterexample: with the Gemini provider configured, the library
available, no credential, and local fallback *enabled*, `generate` returns
the `[GEMINI_UNAVAILABLE]` sentinel, not the deterministic local template —
refuting the claim that a missing credential yields the template whenever
local fallback is enabled. -/
theorem missing_credential_sentinel_counterexample :
    (generateResponse
        { geminiAvailable := true, googleApiKey := false, fallbackLocalReply := true }
        ⟨0⟩ none (.text "x") 0 []
        "Q" "body" "Neutral" "Not urgent").result = .ok "[GEMINI_UNAVAILABLE]" ∧
    "[GEMINI_UNAVAILABLE]" ≠ localFallbackReply "Q" "body" "Neutral" "Not urgent" := by
  exact ⟨rfl, by decide⟩

/-- C7 amended: a force-disabled provider returns the deterministic local
template *regardless* of the local-fallback flag, and a provider with no
credential (and not force-disabled) returns its distinct `UNAVAILABLE`
sentinel *regardless* of the local-fallback flag — for both providers. -/
theorem disabled_or_credentialless_provider_behaviour :
    ∀ (env : GenEnv) (st : ORState) (lg : Option GeminiErrState)
      (go : GeminiOutcome) (now : Nat) (script : List NetEvent) (s b se p : String),
      (env.llmProvider = "gemini" →
        (env.geminiForceDisable = true →
          (generateResponse env st lg go now script s b se p).result =
            .ok (localFallbackReply s b se p)) ∧
        (env.geminiForceDisable = false →
          (env.geminiAvailable = false ∨ env.googleApiKey = false) →
          (generateResponse env st lg go now script s b se p).result =
            .ok "[GEMINI_UNAVAILABLE]")) ∧
      ((env.llmProvider = "openrouter" ∨ env.llmProvider = "or") →
        (env.openrouterForceDisable = true →
          (generateResponse env st lg go now script s b se p).result =
            .ok (localFallbackReply s b se p)) ∧
        (env.openrouterForceDisable = false → env.openrouterApiKey = false →
          (generateResponse env st lg go now script s b se p).result =
            .ok "[OPENROUTER_UNAVAILABLE]")) := by
  intro env st lg go now script s b se p
  constructor
  · intro hprov
    constructor
    · intro hdis
      simp [generateResponse, generateGemini, hprov, hdis]
    · intro hdis hmiss
      rcases hmiss with hmiss | hmiss <;>
        simp [generateResponse, generateGemini, hprov, hdis, hmiss]
  · intro hprov
    constructor
    · intro hdis
      rcases hprov with hprov | hprov <;>
        simp [generateResponse, generateOpenrouter, hprov, hdis]
    · intro hdis hmiss
      rcases hprov with hprov | hprov <;>
        simp [generateResponse, generateOpenrouter, hprov, hdis, hmiss]

/-- C7 witness: the amended behaviour at concrete inputs (force-disabled
Gemini with fallback disabled still yields the template; credentialless
OpenRouter with fallback enabled still yields its sentinel). -/
theorem disabled_or_credentialless_provider_witness :
    (generateResponse { geminiForceDisable := true, fallbackLocalReply := false }
        ⟨0⟩ none (.text "x") 0 [] "Q" "body" "Neutral" "Not urgent").result =
      .ok (localFallbackReply "Q" "body" "Neutral" "Not urgent") ∧
    (generateResponse
        { llmProvider := "openrouter", openrouterApiKey := false, fallbackLocalReply := true }
        ⟨0⟩ none (.text "x") 0 []
        "Q" "body" "Neutral" "Not urgent").result = .ok "[OPENROUTER_UNAVAILABLE]" :=
  ⟨(disabled_or_credentialless_provider_behaviour
      { geminiForceDisable := true, fallbackLocalReply := false }
      ⟨0⟩ none (.text "x") 0 [] "Q" "body" "Neutral" "Not urgent").1 rfl |>.1 rfl,
   (disabled_or_credentialless_provider_behaviour
      { llmProvider := "openrouter", openrouterApiKey := false, fallbackLocalReply := true }
      ⟨0⟩ none (.text "x") 0 [] "Q" "body" "Neutral" "Not urgent").2 (.inl rfl) |>.2 rfl rfl⟩

/-- C6 counterexample: two simulated 429s within one call enter the 60s
cooldown window, but a subsequent call inside the window *raises* the
transient cooldown error (`or_http_429_cooldown` is in the re-raise list of
`_generate_openrouter`) instead of returning a fallback string — refuting
the claim that such calls return the fallback result without raising. -/
theorem cooldown_call_raises_counterexample :
    generateResponse { llmProvider := "openrouter", openrouterApiKey := true }
        ⟨0⟩ none (.text "x") 100 [.resp 429 "", .resp 429 ""] "s" "b" "n" "p" =
      ⟨.error .rateLimitedTwice, ⟨160⟩, 2⟩ ∧
    generateResponse { llmProvider := "openrouter", openrouterApiKey := true }
        ⟨160⟩ none (.text "x") 120 [.resp 200 "hi"] "s" "b" "n" "p" =
      ⟨.error .cooldownActive, ⟨160⟩, 0⟩ :=
  ⟨rfl, rfl⟩

/-- C6 amended: a second rate-limit within a single OpenRouter call enters a
cooldown window of `max 5 OPENROUTER_COOLDOWN_S` seconds (default 60) and
raises the transient rate-limit error; every call made while the cooldown is
active short-circuits with *zero* network requests and raises the transient
cooldown error to its caller (which the queue worker converts into a
re-enqueue) rather than returning the local fallback. -/
theorem rate_limit_cooldown_behaviour :
    (∀ (env : GenEnv) (st : ORState) (lg : Option GeminiErrState)
       (go : GeminiOutcome) (now : Nat) (c₁ c₂ : String) (rest : List NetEvent)
       (s b se p : String),
       (env.llmProvider == "openrouter" || env.llmProvider == "or") = true →
       env.openrouterForceDisable = false →
       env.openrouterApiKey = true →
       st.cooldownUntil ≤ now →
       generateResponse env st lg go now (.resp 429 c₁ :: .resp 429 c₂ :: rest) s b se p =
         ⟨.error .rateLimitedTwice, ⟨now + max 5 env.openrouterCooldownS⟩, 2⟩) ∧
    ({} : GenEnv).openrouterCooldownS = 60 ∧
    (∀ (env : GenEnv) (st : ORState) (lg : Option GeminiErrState)
       (go : GeminiOutcome) (now : Nat) (script : List NetEvent) (s b se p : String),
       (env.llmProvider == "openrouter" || env.llmProvider == "or") = true →
       env.openrouterForceDisable = false →
       env.openrouterApiKey = true →
       now < st.cooldownUntil →
       generateResponse env st lg go now script s b se p =
         ⟨.error .cooldownActive, st, 0⟩) := by
  refine ⟨?_, rfl, ?_⟩
  · intro env st lg go now c₁ c₂ rest s b se p hp hdis hkey hle
    have hnl : ¬ (now < st.cooldownUntil) := Nat.not_lt.mpr hle
    simp [generateResponse, generateOpenrouter, orHandleFirst, orAfterFirst,
      openrouterCall, orLoop, hp, hdis, hkey, hnl, OrErr.isTransient]
  · intro env st lg go now script s b se p hp hdis hkey hlt
    simp [generateResponse, generateOpenrouter, orHandleFirst, orAfterFirst,
      openrouterCall, hp, hdis, hkey, hlt, OrErr.isTransient]

/-- C6 witness: the amended behaviour at concrete inputs. -/
theorem rate_limit_cooldown_witness :
    generateResponse { llmProvider := "openrouter", openrouterApiKey := true }
        ⟨90⟩ none (.text "x") 100 [.resp 429 "a", .resp 429 "b"] "s" "b" "n" "p" =
      ⟨.error .rateLimitedTwice, ⟨160⟩, 2⟩ ∧
    generateResponse { llmProvider := "or", openrouterApiKey := true }
        ⟨200⟩ none (.text "x") 150 [.resp 200 "hi"] "s" "b" "n" "p" =
      ⟨.error .cooldownActive, ⟨200⟩, 0⟩ :=
  ⟨rate_limit_cooldown_behaviour.1
      { llmProvider := "openrouter", openrouterApiKey := true }
      ⟨90⟩ none (.text "x") 100 "a" "b" [] "s" "b" "n" "p" rfl rfl rfl (by decide),
   rate_limit_cooldown_behaviour.2.2
      { llmProvider := "or", openrouterApiKey := true }
      ⟨200⟩ none (.text "x") 150 [.resp 200 "hi"] "s" "b" "n" "p" rfl rfl rfl (by decide)⟩

/-- C1 counterexample: `generate` is *not* total for every simulated provider
outcome — with the OpenRouter provider and a credential configured, a
rate-limit (429) returned twice makes it raise to its caller. -/
theorem generate_raises_counterexample :
    (generateResponse { llmProvider := "openrouter", openrouterApiKey := true }
        ⟨0⟩ none (.text "x") 100 [.resp 429 "", .resp 429 ""] "s" "b" "n" "p").result =
      .error .rateLimitedTwice := rfl

/-- Every error a call can propagate out of the outcome handler of
`_generate_openrouter` passed the transiency test (the non-transient ones are
converted to fallback strings). -/
theorem orHandleFirst_error_transient (env : GenEnv) (lg : Option GeminiErrState)
    (go : GeminiOutcome) (now : Nat) (s b se p : String) (a : ORCallResult) (e : OrErr)
    (h : (orHandleFirst env lg go now s b se p a).result = .error e) :
    e.isTransient = true := by
  rcases a with ⟨res, ast, ascript, acalls⟩
  rcases res with e1 | r1
  · -- the first call raised
    simp only [orHandleFirst] at h
    split at h
    · rename_i htr
      have h2 : Except.error (α := String) e1 = Except.error e := h
      cases h2
      exact htr
    · simp at h
  · -- the first call returned a (possibly empty) reply
    rcases h3 : openrouterCall env ast now ascript with ⟨res3, st3, sc3, c3⟩
    simp only [orHandleFirst, h3] at h
    split at h
    · simp at h
    · split at h
      · rename_i hne xscr e3
        split at h
        · rename_i htr
          have h2 : Except.error (α := String) e3 = Except.error e := h
          cases h2
          exact htr
        · simp at h
      · rename_i hne xscr r3
        split at h
        · simp at h
        · simp at h

/-- C1 amended: `generate` returns a string for every input and simulated
outcome *except* that, on the OpenRouter provider, transient provider errors
(rate-limit/cooldown/timeout/5xx) are deliberately re-raised to the caller so
the queue worker can re-enqueue; every raised error is transient and can only
arise on the OpenRouter provider — in particular the Gemini path and every
non-transient outcome (402, empty output, missing credential, 4xx) always
yield a string. -/
theorem generate_total_except_transient_openrouter :
    ∀ (env : GenEnv) (st : ORState) (lg : Option GeminiErrState)
      (go : GeminiOutcome) (now : Nat) (script : List NetEvent)
      (s b se p : String) (e : OrErr),
      (generateResponse env st lg go now script s b se p).result = .error e →
      (env.llmProvider == "openrouter" || env.llmProvider == "or") = true ∧
      e.isTransient = true := by
  intro env st lg go now script s b se p e h
  by_cases hp : (env.llmProvider == "openrouter" || env.llmProvider == "or") = true
  · refine ⟨hp, ?_⟩
    simp only [generateResponse, hp, if_true] at h
    unfold generateOpenrouter at h
    split at h
    · simp at h
    · split at h
      · simp at h
      · exact orHandleFirst_error_transient env lg go now s b se p _ e h
  · exfalso
    simp only [generateResponse, hp] at h
    simp at h

/-- C1 witness: the amended classification applied at an input on which the
generator does raise. -/
theorem generate_total_except_transient_witness :
    (generateResponse { llmProvider := "openrouter", openrouterApiKey := true }
        ⟨0⟩ none (.text "x") 100 [.resp 429 "", .resp 429 ""] "s" "b" "n" "p").result =
      .error .rateLimitedTwice ∧
    ("openrouter" == "openrouter" || "openrouter" == "or") = true ∧
    OrErr.rateLimitedTwice.isTransient = true :=
  ⟨rfl, generate_total_except_transient_openrouter
      { llmProvider := "openrouter", openrouterApiKey := true }
      ⟨0⟩ none (.text "x") 100 [.resp 429 "", .resp 429 ""] "s" "b" "n" "p"
      .rateLimitedTwice rfl⟩

/-- C4 counterexample: the channel created by `subscribe` is
`asyncio.Queue()` with `maxsize = 0`, i.e. *unbounded* — and an unbounded
channel is never full, so the claimed "bounded channel" part of the
invariant is false on this code. -/
theorem subscriber_channel_unbounded_counterexample :
    EventBroadcaster.newChannel.isBounded = false ∧
    Channel.isFull { maxsize := 0, buf := List.replicate 1000 "event: e\ndata: d\n\n" } = false := by
  exact ⟨rfl, rfl⟩

/-- C4 amended: `subscribe` registers a fresh *unbounded* channel
(`maxsize = 0`); since an unbounded channel is never full, every publish
appends exactly one copy of the framed event to every channel registered at
the moment of publish, with no drop (`publish` is a total function and never
blocks).  The full-channel drop branch exists in the code but is dead for
channels created by `subscribe`. -/
theorem publish_delivers_exactly_once :
    EventBroadcaster.newChannel.maxsize = 0 ∧
    (∀ b : EventBroadcaster,
       (EventBroadcaster.subscribe b).queues = b.queues ++ [EventBroadcaster.newChannel]) ∧
    (∀ (b : EventBroadcaster) (event data : String),
       (∀ c ∈ b.queues, c.maxsize = 0) →
       (EventBroadcaster.publish b event data).queues =
         b.queues.map (fun c => { c with buf := c.buf ++ [sseFrame event data] })) := by
  refine ⟨rfl, fun b => rfl, ?_⟩
  intro b event data hall
  have hmap : ∀ c ∈ b.queues,
      (if c.isFull then c else { c with buf := c.buf ++ [sseFrame event data] }) =
        { c with buf := c.buf ++ [sseFrame event data] } := by
    intro c hc
    have h0 : c.maxsize = 0 := hall c hc
    simp [Channel.isFull, h0]
  simp only [EventBroadcaster.publish]
  exact List.map_congr_left hmap

/-- C4 witness: one publish over a broadcaster with two freshly subscribed
channels delivers one framed copy to each. -/
theorem publish_delivers_exactly_once_witness :
    (EventBroadcaster.publish ⟨[⟨0, []⟩, ⟨0, ["old"]⟩]⟩ "email_updated" "x").queues =
      [⟨0, [sseFrame "email_updated" "x"]⟩, ⟨0, ["old", sseFrame "email_updated" "x"]⟩] := by
  have h := publish_delivers_exactly_once.2.2 ⟨[⟨0, []⟩, ⟨0, ["old"]⟩]⟩
    "email_updated" "x" (by intro c hc; fin_cases hc <;> rfl)
  simpa using h

/-- C10: a popped job whose message is missing from the store, or whose
message already carries a (truthy, i.e. non-empty) response, is discarded
with no other state change: store, attempt table, event log and the worker's
push log are untouched; only the pop itself changed the queue. -/
theorem stale_job_discarded_without_side_effects :
    ∀ (st : WorkerState) (item : PrioritizedEmail) (q' : EmailPriorityQueue)
      (g : Except Unit String),
      st.queue.pop = some (item, q') →
      (get_email st.store item.email_id = none ∨
       ∃ e, get_email st.store item.email_id = some e ∧ pyTruthyOpt e.auto_response = true) →
      workerStep st g = { st with queue := q' } := by
  intro st item q' g hpop hskip
  rcases hskip with hnone | ⟨e, hsome, htruthy⟩
  · simp [workerStep, hpop, hnone]
  · simp [workerStep, hpop, hsome, htruthy]

/-- C10 witness: a job for a message that already carries a response is
discarded; only the queue changed (by the pop). -/
theorem stale_job_discarded_witness :
    workerStep
        ⟨⟨[⟨0, 1, none⟩]⟩,
         [{ id := 1, sender := "a@b", subject := "S", body := "B", received_at := 0,
            sentiment := "Neutral", priority := "Urgent", auto_response := some "done",
            status := "pending", source := "manual", external_id := none }],
         (fun x => if x = 1 then 2 else 0), [], []⟩ (.ok "x") =
      ⟨⟨[]⟩,
       [{ id := 1, sender := "a@b", subject := "S", body := "B", received_at := 0,
          sentiment := "Neutral", priority := "Urgent", auto_response := some "done",
          status := "pending", source := "manual", external_id := none }],
       (fun x => if x = 1 then 2 else 0), [], []⟩ :=
  stale_job_discarded_without_side_effects _ ⟨0, 1, none⟩ ⟨[]⟩ (.ok "x") rfl
    (Or.inr ⟨_, rfl, rfl⟩)

/-- Updating the stored auto-response of the row `get_email` finds: the
resulting row keeps every other column, and its `status` changes only when
`mark_responded` is passed. -/
theorem get_email_save_auto_response (store : List Email) (email_id : Nat)
    (t : String) (mr : Bool) (email : Email)
    (h : get_email store email_id = some email) :
    get_email (save_auto_response store email_id t mr) email_id =
      some { email with auto_response := some t,
                        status := if mr then "responded" else email.status } := by
  induction store with
  | nil => simp [get_email] at h
  | cons a rest ih =>
    cases ha : (a.id == email_id) with
    | true =>
      simp only [get_email, List.find?, ha] at h
      cases h
      simp [get_email, save_auto_response, List.find?, ha]
    | false =>
      simp only [get_email, List.find?, ha] at h
      have := ih h
      simp only [get_email, save_auto_response] at this ⊢
      simpa [List.find?, ha] using this

/-- C2 counterexample: on a successful non-empty generation the worker
persists the text and publishes an `email_updated` event whose payload says
"responded", but the stored `status` column remains `"pending"` — the worker
calls `save_auto_response` without `mark_responded=True`, so the claimed
"sets the message's stored status to responded" is false. -/
theorem success_leaves_status_pending_counterexample :
    ((workerStep
        ⟨⟨[⟨1, 1, none⟩]⟩,
         [{ id := 1, sender := "a@b", subject := "S", body := "B", received_at := 0,
            sentiment := "Neutral", priority := "Not urgent", auto_response := none,
            status := "pending", source := "manual", external_id := none }],
         (fun _ => 0), [], []⟩ (.ok "Hello")).store.map (fun e => (e.auto_response, e.status))) =
      [(some "Hello", "pending")] ∧
    (workerStep
        ⟨⟨[⟨1, 1, none⟩]⟩,
         [{ id := 1, sender := "a@b", subject := "S", body := "B", received_at := 0,
            sentiment := "Neutral", priority := "Not urgent", auto_response := none,
            status := "pending", source := "manual", external_id := none }],
         (fun _ => 0), [], []⟩ (.ok "Hello")).events =
      [("email_updated", "\x7b\"id\":1,\"status\":\"responded\"\x7d")] := by
  exact ⟨rfl, rfl⟩

/-- C2 amended: for every popped job whose generator call succeeds with
non-empty text, the worker persists that text as the message's response,
clears the message's attempt record and publishes an `email_updated` event
(whose payload claims status "responded"), but leaves the stored `status`
column unchanged — the status is moved to "responded" only later by the
approval flow, which passes `mark_responded=True`. -/
theorem success_persists_clears_publishes :
    ∀ (st : WorkerState) (item : PrioritizedEmail) (q' : EmailPriorityQueue)
      (email : Email) (t : String),
      st.queue.pop = some (item, q') →
      get_email st.store item.email_id = some email →
      pyTruthyOpt email.auto_response = false →
      pyStrip t ≠ "" →
      workerStep st (.ok t) =
        { st with queue := q',
                  store := save_auto_response st.store email.id t,
                  events := st.events ++ [("email_updated", workerEventPayload email.id)],
                  attempts := attDel st.attempts email.id } ∧
      get_email (save_auto_response st.store email.id t) email.id =
        some { email with auto_response := some t } := by
  intro st item q' email t hpop hget hresp ht
  have hget' : List.find? (fun e => e.id == item.email_id) st.store = some email := hget
  have hid := List.find?_some hget'
  have hid' : email.id = item.email_id := by simpa using hid
  constructor
  · simp [workerStep, hpop, hget, hresp, ht]
  · have h2 := get_email_save_auto_response st.store item.email_id t false email hget
    conv_lhs => rw [hid']
    simpa using h2

/-- C2 witness: the amended behaviour at a concrete state. -/
theorem success_persists_clears_publishes_witness :
    workerStep
        ⟨⟨[⟨1, 1, none⟩]⟩,
         [{ id := 1, sender := "a@b", subject := "S", body := "B", received_at := 0,
            sentiment := "Neutral", priority := "Not urgent", auto_response := none,
            status := "pending", source := "manual", external_id := none }],
         (fun x => if x = 1 then 1 else 0), [], []⟩ (.ok "Hello") =
      ⟨⟨[]⟩,
       [{ id := 1, sender := "a@b", subject := "S", body := "B", received_at := 0,
          sentiment := "Neutral", priority := "Not urgent", auto_response := some "Hello",
          status := "pending", source := "manual", external_id := none }],
       attDel (fun x => if x = 1 then 1 else 0) 1,
       [("email_updated", workerEventPayload 1)], []⟩ := by
  have h := success_persists_clears_publishes
    ⟨⟨[⟨1, 1, none⟩]⟩,
     [{ id := 1, sender := "a@b", subject := "S", body := "B", received_at := 0,
        sentiment := "Neutral", priority := "Not urgent", auto_response := none,
        status := "pending", source := "manual", external_id := none }],
     (fun x => if x = 1 then 1 else 0), [], []⟩ ⟨1, 1, none⟩ ⟨[]⟩
    { id := 1, sender := "a@b", subject := "S", body := "B", received_at := 0,
      sentiment := "Neutral", priority := "Not urgent", auto_response := none,
      status := "pending", source := "manual", external_id := none } "Hello"
    rfl rfl rfl (by decide)
  rw [h.1]
  rfl

/-- Processing one discovered message cannot raise the number of stored rows
carrying a given (non-empty) external id above one. -/
theorem countExternal_processMail (classify : String → String) (provider : String)
    (st : FetchState) (m : RawMail) (e : String) (he : e ≠ "")
    (h : countExternal st.store e ≤ 1) :
    countExternal (processMail classify provider st m).store e ≤ 1 := by
  unfold processMail
  split
  · exact h
  · split
    · exact h
    · rename_i hc1 hc2
      simp only [countExternal, create_email, List.countP_append, List.countP_cons,
        List.countP_nil] at h ⊢
      by_cases hext : (m.external_id == some e) = true
      · have hext' : m.external_id = some e := by simpa using hext
        have htruthy : pyTruthyOpt m.external_id = true := by
          rw [hext']
          simpa [pyTruthyOpt] using he
        have hnotex : email_exists_external st.store (m.external_id.getD "") = false := by
          cases hcase : email_exists_external st.store (m.external_id.getD "") with
          | false => rfl
          | true => exact absurd (by simp [htruthy, hcase]) hc1
        have hzero : List.countP (fun a => a.external_id == some e) st.store = 0 := by
          simp only [email_exists_external, List.any_eq_false] at hnotex
          rw [List.countP_eq_zero]
          intro a ha
          have hna := hnotex a ha
          rw [hext'] at hna
          simpa using hna
        simp [hzero, hext]
      · simpa [hext] using h

/-- C9: discovery-cycle deduplication — a message with a truthy external id
already present in the store is skipped entirely (no record, no enqueue); a
message without an external id is skipped iff an exact
(sender, subject, received_at) match exists; every non-duplicate is
persisted with no response and `status='pending'` and a job is enqueued at
its computed priority; and a cycle never brings the number of rows per
external id above one, so two cycles returning the same external id create
at most one record. -/
theorem discovery_dedup_and_persist :
    ∀ (classify : String → String) (provider : String) (st : FetchState) (m : RawMail),
      (pyTruthyOpt m.external_id = true →
        email_exists_external st.store (m.external_id.getD "") = true →
        processMail classify provider st m = st) ∧
      (pyTruthyOpt m.external_id = false →
        email_exists st.store m.sender m.subject m.received_at = true →
        processMail classify provider st m = st) ∧
      ((pyTruthyOpt m.external_id = true ∧
          email_exists_external st.store (m.external_id.getD "") = false) ∨
       (pyTruthyOpt m.external_id = false ∧
          email_exists st.store m.sender m.subject m.received_at = false) →
        processMail classify provider st m =
          { store := create_email st.store st.nextId m.sender m.subject m.body m.received_at
              (classify m.body) (determine_priority m.body) none provider m.external_id,
            nextId := st.nextId + 1,
            queue := st.queue.push st.nextId (determine_priority m.body) }) ∧
      (∀ (e : String) (mails : List RawMail), e ≠ "" →
        countExternal st.store e ≤ 1 →
        countExternal (runCycle classify provider st mails).store e ≤ 1) := by
  intro classify provider st m
  refine ⟨?_, ?_, ?_, ?_⟩
  · intro htruthy hex
    simp [processMail, htruthy, hex]
  · intro htruthy hex
    simp [processMail, htruthy, hex]
  · intro hnew
    rcases hnew with ⟨htruthy, hex⟩ | ⟨htruthy, hex⟩ <;>
      simp [processMail, htruthy, hex]
  · intro e mails he
    clear m
    induction mails generalizing st with
    | nil => intro h; simpa [runCycle] using h
    | cons m rest ih =>
      intro h
      have h1 := countExternal_processMail classify provider st m e he h
      simpa [runCycle] using ih (processMail classify provider st m) h1

/-- C9 witness: a second cycle returning a message with an already stored
external id is a no-op for it, and a fresh message is persisted pending and
enqueued. -/
theorem discovery_dedup_witness :
    processMail (fun _ => "Neutral") "gmail"
        ⟨[{ id := 1, sender := "a@b", subject := "S", body := "B", received_at := 5,
            sentiment := "Neutral", priority := "Not urgent", auto_response := none,
            status := "pending", source := "gmail", external_id := some "X" }], 2, ⟨[]⟩⟩
        ⟨"a@b", "S", "B", 5, some "X"⟩ =
      ⟨[{ id := 1, sender := "a@b", subject := "S", body := "B", received_at := 5,
          sentiment := "Neutral", priority := "Not urgent", auto_response := none,
          status := "pending", source := "gmail", external_id := some "X" }], 2, ⟨[]⟩⟩ ∧
    countExternal
      (runCycle (fun _ => "Neutral") "gmail" ⟨[], 1, ⟨[]⟩⟩
        [⟨"a@b", "S", "urgent thing", 5, some "X"⟩, ⟨"a@b", "S", "urgent thing", 5, some "X"⟩]).store
      "X" ≤ 1 :=
  ⟨(discovery_dedup_and_persist (fun _ => "Neutral") "gmail"
      ⟨[{ id := 1, sender := "a@b", subject := "S", body := "B", received_at := 5,
          sentiment := "Neutral", priority := "Not urgent", auto_response := none,
          status := "pending", source := "gmail", external_id := some "X" }], 2, ⟨[]⟩⟩
      ⟨"a@b", "S", "B", 5, some "X"⟩).1 (by decide) (by decide),
   (discovery_dedup_and_persist (fun _ => "Neutral") "gmail" ⟨[], 1, ⟨[]⟩⟩
      ⟨"a@b", "S", "B", 5, some "X"⟩).2.2.2 "X"
      [⟨"a@b", "S", "urgent thing", 5, some "X"⟩, ⟨"a@b", "S", "urgent thing", 5, some "X"⟩]
      (by decide) (by decide)⟩

/-- `attGet` after `attSet`: the written key reads back the written value,
every other key is untouched. -/
theorem attGet_attSet (a : AttemptTable) (email_id n id' : Nat) :
    attGet (attSet a email_id n) id' = if id' = email_id then n else attGet a id' := rfl

/-- `attGet` after `attDel`: the deleted key reads 0 (absent), every other
key is untouched. -/
theorem attGet_attDel (a : AttemptTable) (email_id id' : Nat) :
    attGet (attDel a email_id) id' = if id' = email_id then 0 else attGet a id' := rfl

/-- `_build_local_fallback` always returns a non-empty string (the template
starts with a fixed greeting). -/
theorem buildLocalFallback_ne_empty (s b : String) : buildLocalFallback s b ≠ "" := by
  unfold buildLocalFallback
  intro hcontra
  have hdata := congrArg String.data hcontra
  simp [String.data_append] at hdata

/-- Updating a different row's auto-response does not change what
`get_email` finds for a key other than the updated one. -/
theorem get_email_save_other (store : List Email) (email_id id' : Nat)
    (t : String) (mr : Bool) (h : id' ≠ email_id) :
    get_email (save_auto_response store email_id t mr) id' = get_email store id' := by
  induction store with
  | nil => rfl
  | cons a rest ih =>
    cases ha : (a.id == email_id) with
    | true =>
      have ha' : a.id = email_id := by simpa using ha
      have hne : (a.id == id') = false := by
        simp only [beq_eq_false_iff_ne, ne_eq, ha']
        omega
      simp only [get_email, save_auto_response, List.map_cons, List.find?, ha] at *
      simpa [hne] using ih
    | false =>
      cases hqid : (a.id == id') with
      | true =>
        simp [get_email, save_auto_response, List.find?, ha, hqid]
      | false =>
        simp only [get_email, save_auto_response, List.map_cons, List.find?, ha] at *
        simpa [hqid] using ih

/-- All attempt counts stay at most 2 between worker iterations (3 is
reached only transiently inside an iteration, and immediately cleared). -/
def attLE2 (st : WorkerState) : Prop := ∀ id, attGet st.attempts id ≤ 2

theorem attLE2_failurePath (st : WorkerState) (email : Email) (h : attLE2 st) :
    attLE2 (failurePath st email) := by
  intro id
  have h' : st.attempts id ≤ 2 := h id
  have he' : st.attempts email.id ≤ 2 := h email.id
  by_cases hc : attGet st.attempts email.id + 1 ≥ MAX_ATTEMPTS_PER_EMAIL
  · have hred : (failurePath st email).attempts =
        attDel (attSet st.attempts email.id (attGet st.attempts email.id + 1)) email.id := by
      unfold failurePath
      rw [if_pos hc]
    show attGet (failurePath st email).attempts id ≤ 2
    rw [hred]
    simp only [attGet, attDel, attSet]
    split_ifs <;> omega
  · have hred : (failurePath st email).attempts =
        attSet st.attempts email.id (attGet st.attempts email.id + 1) := by
      unfold failurePath
      rw [if_neg hc]
    show attGet (failurePath st email).attempts id ≤ 2
    rw [hred]
    simp only [attGet, attSet, MAX_ATTEMPTS_PER_EMAIL] at *
    split_ifs <;> omega

theorem attLE2_step (st : WorkerState) (g : Except Unit String) (h : attLE2 st) :
    attLE2 (workerStep st g) := by
  unfold workerStep
  split
  · exact h
  · split
    · exact h
    · rename_i item q' heq email heq2
      split
      · exact h
      · split
        · exact attLE2_failurePath _ email h
        · split
          · intro id
            have h' : st.attempts id ≤ 2 := h id
            show attGet (attDel st.attempts email.id) id ≤ 2
            simp only [attGet, attDel]
            split_ifs <;> omega
          · exact attLE2_failurePath _ email h

/-- Every reachable worker state keeps all attempt counts at most 2. -/
theorem wreachable_attempts_le_two {st : WorkerState} (hr : WReachable st) :
    attLE2 st := by
  induction hr with
  | init q store => intro id; simp [attGet]
  | step g hst ih => exact attLE2_step _ g ih
  | enqueue email_id priority hst ih => exact ih

/-- The message has a truthy stored response. -/
def responded (st : WorkerState) (email_id : Nat) : Prop :=
  ∃ e, get_email st.store email_id = some e ∧ pyTruthyOpt e.auto_response = true

/-- Number of worker re-enqueues of a given message in the ghost push log. -/
def idPushes (l : List (Nat × String)) (email_id : Nat) : Nat :=
  l.countP (fun p => p.1 == email_id)

/-- The failure path of the worker keeps a responded message responded and
never pushes it (it only pushes the non-responded message it processed). -/
theorem responded_failurePath (st : WorkerState) (email : Email) (email_id : Nat)
    (e : Email) (hge : get_email st.store email_id = some e)
    (htr : pyTruthyOpt e.auto_response = true) (hne : email_id ≠ email.id) :
    responded (failurePath st email) email_id ∧
    idPushes (failurePath st email).pushLog email_id = idPushes st.pushLog email_id := by
  unfold failurePath
  split
  · constructor
    · unfold responded
      split
      · refine ⟨e, ?_, htr⟩
        rw [get_email_save_other st.store email.id email_id _ false hne]
        exact hge
      · exact ⟨e, hge, htr⟩
    · rfl
  · refine ⟨⟨e, hge, htr⟩, ?_⟩
    simp only [idPushes, List.countP_append, List.countP_cons, List.countP_nil]
    have hf : (email.id == email_id) = false := by
      simp only [beq_eq_false_iff_ne, ne_eq]
      omega
    simp [hf]

theorem responded_step (st : WorkerState) (g : Except Unit String) (email_id : Nat)
    (h : responded st email_id) :
    responded (workerStep st g) email_id ∧
    idPushes (workerStep st g).pushLog email_id = idPushes st.pushLog email_id := by
  obtain ⟨e, hge, htr⟩ := h
  unfold workerStep
  split
  · exact ⟨⟨e, hge, htr⟩, rfl⟩
  · rename_i item q' heq
    split
    · exact ⟨⟨e, hge, htr⟩, rfl⟩
    · rename_i email heq2
      have hid : email.id = item.email_id := by
        have heq2' : List.find? (fun x => x.id == item.email_id) st.store = some email := heq2
        have := List.find?_some heq2'
        simpa using this
      split
      · exact ⟨⟨e, hge, htr⟩, rfl⟩
      · rename_i hnt
        have hne : email_id ≠ email.id := by
          intro hcon
          rw [hcon, hid] at hge
          rw [heq2] at hge
          cases hge
          exact hnt (by simpa using htr)
        split
        · exact responded_failurePath _ email email_id e hge htr hne
        · split
          · refine ⟨⟨e, ?_, htr⟩, rfl⟩
            rw [get_email_save_other st.store email.id email_id _ false hne]
            exact hge
          · exact responded_failurePath _ email email_id e hge htr hne

/-- Once responded, a message is never pushed by any later worker run, and
stays responded. -/
theorem responded_run (st : WorkerState) (email_id : Nat)
    (gens : List (Except Unit String)) (h : responded st email_id) :
    responded (runWorker st gens) email_id ∧
    idPushes (runWorker st gens).pushLog email_id = idPushes st.pushLog email_id := by
  induction gens generalizing st with
  | nil => exact ⟨h, rfl⟩
  | cons g rest ih =>
    have h1 := responded_step st g email_id h
    have h2 := ih (workerStep st g) h1.1
    refine ⟨h2.1, ?_⟩
    simp only [runWorker, List.foldl_cons] at h2 ⊢
    rw [h2.2, h1.2]

/-- The worker iteration that takes a message's attempt count from 2 to the
ceiling 3: it persists the local fallback, publishes, clears the record,
performs no push, and leaves the message responded. -/
theorem ceiling_step (st : WorkerState) (item : PrioritizedEmail)
    (q' : EmailPriorityQueue) (email : Email) (g : Except Unit String)
    (hpop : st.queue.pop = some (item, q'))
    (hget : get_email st.store item.email_id = some email)
    (hresp : pyTruthyOpt email.auto_response = false)
    (hfail : g = .error () ∨ ∃ t, g = .ok t ∧ pyStrip t = "")
    (hatt : attGet st.attempts email.id = 2) :
    workerStep st g =
      { st with queue := q',
                store := save_auto_response st.store email.id
                  (buildLocalFallback email.subject email.body),
                events := st.events ++ [("email_updated", workerEventPayload email.id)],
                attempts := attDel (attSet st.attempts email.id 3) email.id } ∧
    responded (workerStep st g) email.id := by
  have hid : email.id = item.email_id := by
    have hget' : List.find? (fun x => x.id == item.email_id) st.store = some email := hget
    have := List.find?_some hget'
    simpa using this
  have hne := buildLocalFallback_ne_empty email.subject email.body
  have hstep : workerStep st g =
      { st with queue := q',
                store := save_auto_response st.store email.id
                  (buildLocalFallback email.subject email.body),
                events := st.events ++ [("email_updated", workerEventPayload email.id)],
                attempts := attDel (attSet st.attempts email.id 3) email.id } := by
    have hatt' : attGet st.attempts item.email_id = 2 := by rw [← hid]; exact hatt
    rcases hfail with hg | ⟨t, hg, hts⟩ <;> subst hg <;>
      simp [workerStep, hpop, hget, hresp, failurePath, hatt', hne,
        MAX_ATTEMPTS_PER_EMAIL, hid, *]
  refine ⟨hstep, ?_⟩
  rw [hstep]
  refine ⟨{ email with auto_response := some (buildLocalFallback email.subject email.body) },
    ?_, ?_⟩
  · show get_email (save_auto_response st.store email.id
        (buildLocalFallback email.subject email.body)) email.id = _
    have h2 := get_email_save_auto_response st.store item.email_id
      (buildLocalFallback email.subject email.body) false email hget
    conv_lhs => rw [hid]
    simpa using h2
  · simpa [pyTruthyOpt] using hne

/-- C3: the Attempt Record never exceeds the ceiling of 3 on any reachable
worker state; the iteration that reaches 3 (generator-error or empty-result
path) persists the non-empty locally generated fallback, publishes the
update event, clears the record and performs no push; and a message with a
(truthy) stored response — as every message leaving the ceiling iteration
has — is never pushed again by any later worker run. -/
theorem attempt_ceiling_and_terminal_fallback :
    (∀ st, WReachable st → ∀ email_id, attGet st.attempts email_id ≤ 3) ∧
    (∀ (st : WorkerState) (item : PrioritizedEmail) (q' : EmailPriorityQueue)
       (email : Email) (g : Except Unit String),
       st.queue.pop = some (item, q') →
       get_email st.store item.email_id = some email →
       pyTruthyOpt email.auto_response = false →
       (g = .error () ∨ ∃ t, g = .ok t ∧ pyStrip t = "") →
       attGet st.attempts email.id = 2 →
       workerStep st g =
         { st with queue := q',
                   store := save_auto_response st.store email.id
                     (buildLocalFallback email.subject email.body),
                   events := st.events ++ [("email_updated", workerEventPayload email.id)],
                   attempts := attDel (attSet st.attempts email.id 3) email.id } ∧
       buildLocalFallback email.subject email.body ≠ "" ∧
       attGet (workerStep st g).attempts email.id = 0 ∧
       responded (workerStep st g) email.id) ∧
    (∀ (st : WorkerState) (email_id : Nat) (gens : List (Except Unit String)),
       responded st email_id →
       idPushes (runWorker st gens).pushLog email_id = idPushes st.pushLog email_id) := by
  refine ⟨?_, ?_, ?_⟩
  · intro st hr email_id
    have := wreachable_attempts_le_two hr email_id
    omega
  · intro st item q' email g hpop hget hresp hfail hatt
    obtain ⟨hstep, hrespd⟩ := ceiling_step st item q' email g hpop hget hresp hfail hatt
    refine ⟨hstep, buildLocalFallback_ne_empty email.subject email.body, ?_, hrespd⟩
    rw [hstep]
    show attGet (attDel (attSet st.attempts email.id 3) email.id) email.id = 0
    simp [attGet, attDel]
  · intro st email_id gens h
    exact (responded_run st email_id gens h).2

/-- A sample pending message used by concrete witnesses. -/
def sampleEmail : Email :=
  { id := 1, sender := "a@b", subject := "S", body := "B", received_at := 0,
    sentiment := "Neutral", priority := "Not urgent", auto_response := none,
    status := "pending", source := "manual", external_id := none }

/-- A worker state holding one pending message whose attempt count is 2. -/
def ceilingState : WorkerState :=
  ⟨⟨[⟨1, 1, none⟩]⟩, [sampleEmail], fun x => if x = 1 then 2 else 0, [], []⟩

/-- A worker state whose only message already has a response. -/
def respondedState : WorkerState :=
  ⟨⟨[]⟩, [{ sampleEmail with auto_response := some "done" }], fun _ => 0, [], []⟩

/-- C3 witness: the ceiling bound instantiated on a reachable state; a
concrete third failure persists the fallback and clears the record; and a
responded message is pushed by no later worker run. -/
theorem attempt_ceiling_witness :
    attGet ((⟨⟨[]⟩, [], fun _ => 0, [], []⟩ : WorkerState).attempts) 7 ≤ 3 ∧
    workerStep ceilingState (.error ()) =
      { queue := ⟨[]⟩,
        store := save_auto_response [sampleEmail] 1 (buildLocalFallback "S" "B"),
        attempts := attDel (attSet (fun x => if x = 1 then 2 else 0) 1 3) 1,
        events := [("email_updated", workerEventPayload 1)],
        pushLog := [] } ∧
    idPushes (runWorker respondedState [.error (), .ok "x"]).pushLog 1 = idPushes [] 1 :=
  ⟨attempt_ceiling_and_terminal_fallback.1 _ (WReachable.init ⟨[]⟩ []) 7,
   (attempt_ceiling_and_terminal_fallback.2.1 ceilingState ⟨1, 1, none⟩ ⟨[]⟩ sampleEmail
      (.error ()) rfl rfl rfl (Or.inl rfl) (by decide)).1,
   attempt_ceiling_and_terminal_fallback.2.2 respondedState 1 [.error (), .ok "x"]
     ⟨{ sampleEmail with auto_response := some "done" }, rfl, by decide⟩⟩

/-! ### Verification of the `heapq` priority queue -/

/-- The binary-heap shape invariant of a CPython `heapq` list: every
non-root entry is at least its parent (comparison is on `priority_rank`
only, as in `PrioritizedEmail.__lt__`). -/
def IsHeap (l : List PrioritizedEmail) : Prop :=
  ∀ i, 0 < i → i < l.length →
    (hget l (parentIdx i)).priority_rank ≤ (hget l i).priority_rank

theorem parentIdx_lt {i : Nat} (h : 0 < i) : parentIdx i < i := by
  simp only [parentIdx]
  omega

theorem parentIdx_eq_iff {c pos : Nat} (hc : 0 < c) :
    parentIdx c = pos ↔ c = 2 * pos + 1 ∨ c = 2 * pos + 2 := by
  simp only [parentIdx]
  omega

theorem hget_set_eq (l : List PrioritizedEmail) (i : Nat) (x : PrioritizedEmail)
    (h : i < l.length) : hget (l.set i x) i = x := by
  induction l generalizing i with
  | nil => simp at h
  | cons a rest ih =>
    cases i with
    | zero => rfl
    | succ n =>
      simp only [List.set]
      exact ih n (by simpa using h)

theorem hget_set_ne (l : List PrioritizedEmail) (i j : Nat) (x : PrioritizedEmail)
    (h : i ≠ j) : hget (l.set i x) j = hget l j := by
  induction l generalizing i j with
  | nil => simp [hget]
  | cons a rest ih =>
    cases i with
    | zero =>
      cases j with
      | zero => exact absurd rfl h
      | succ m => rfl
    | succ n =>
      cases j with
      | zero => rfl
      | succ m =>
        simp only [List.set]
        exact ih n m (by omega)

theorem hget_append_lt (l : List PrioritizedEmail) (x : PrioritizedEmail) (i : Nat)
    (h : i < l.length) : hget (l ++ [x]) i = hget l i := by
  induction l generalizing i with
  | nil => simp at h
  | cons a rest ih =>
    cases i with
    | zero => rfl
    | succ n => exact ih n (by simpa using h)

theorem hget_append_len (l : List PrioritizedEmail) (x : PrioritizedEmail) :
    hget (l ++ [x]) l.length = x := by
  induction l with
  | nil => rfl
  | cons a rest ih => exact ih

theorem hget_dropLast (l : List PrioritizedEmail) (i : Nat)
    (h : i < l.length - 1) : hget l.dropLast i = hget l i := by
  induction l generalizing i with
  | nil => simp [hget]
  | cons a rest ih =>
    cases rest with
    | nil => simp at h
    | cons b rest2 =>
      cases i with
      | zero => rfl
      | succ n =>
        show hget (b :: rest2).dropLast n = hget (b :: rest2) n
        exact ih n (by simp at h ⊢; omega)

/-- Loop invariant of `_siftdown` (bubble-up) with the hole at `pos`:
(a) the heap shape holds away from the hole; (b) `newitem` is below every
child of the hole; (c) the hole's parent value is below every child of the
hole. -/
def SiftdownInv (l : List PrioritizedEmail) (newitem : PrioritizedEmail)
    (pos : Nat) : Prop :=
  (∀ i, 0 < i → i < l.length → i ≠ pos → parentIdx i ≠ pos →
     (hget l (parentIdx i)).priority_rank ≤ (hget l i).priority_rank) ∧
  (∀ c, 0 < c → c < l.length → parentIdx c = pos →
     newitem.priority_rank ≤ (hget l c).priority_rank) ∧
  (∀ c, 0 < c → c < l.length → parentIdx c = pos → 0 < pos →
     (hget l (parentIdx pos)).priority_rank ≤ (hget l c).priority_rank)

/-- One bubble-up move preserves the `_siftdown` invariant. -/
theorem siftdownInv_step (l : List PrioritizedEmail) (newitem : PrioritizedEmail)
    (pos : Nat) (h0 : 0 < pos) (hpos : pos < l.length)
    (hlt : newitem.priority_rank < (hget l (parentIdx pos)).priority_rank)
    (hinv : SiftdownInv l newitem pos) :
    SiftdownInv (l.set pos (hget l (parentIdx pos))) newitem (parentIdx pos) := by
  obtain ⟨ha, hb, hc⟩ := hinv
  have hplt : parentIdx pos < pos := parentIdx_lt h0
  refine ⟨?_, ?_, ?_⟩
  · intro i h0i hil hip hpp
    rw [List.length_set] at hil
    by_cases hipos : i = pos
    · exact absurd (hipos ▸ rfl) hpp
    · by_cases hppos : parentIdx i = pos
      · -- i is a child of the old hole
        rw [hppos, hget_set_eq l pos _ hpos, hget_set_ne l pos i _ (by omega)]
        exact hc i h0i hil hppos h0
      · rw [hget_set_ne l pos (parentIdx i) _ (by omega),
          hget_set_ne l pos i _ (by omega)]
        exact ha i h0i hil hipos hppos
  · intro c h0c hcl hpc
    rw [List.length_set] at hcl
    by_cases hcpos : c = pos
    · rw [hcpos, hget_set_eq l pos _ hpos]
      omega
    · rw [hget_set_ne l pos c _ (by omega)]
      have := ha c h0c hcl hcpos (by omega)
      rw [hpc] at this
      omega
  · intro c h0c hcl hpc h0p
    rw [List.length_set] at hcl
    have hgp : parentIdx (parentIdx pos) < parentIdx pos := parentIdx_lt h0p
    rw [hget_set_ne l pos (parentIdx (parentIdx pos)) _ (by omega)]
    have hpar : (hget l (parentIdx (parentIdx pos))).priority_rank ≤
        (hget l (parentIdx pos)).priority_rank :=
      ha (parentIdx pos) h0p (by omega) (by omega) (by omega)
    by_cases hcpos : c = pos
    · rw [hcpos, hget_set_eq l pos _ hpos]
      exact hpar
    · rw [hget_set_ne l pos c _ (by omega)]
      have h2 := ha c h0c hcl hcpos (by omega)
      rw [hpc] at h2
      omega

/-- Writing `newitem` into the hole yields a heap, provided the hole's
parent (if any) is not above `newitem`. -/
theorem isHeap_set_exit (l : List PrioritizedEmail) (newitem : PrioritizedEmail)
    (pos : Nat) (hpos : pos < l.length) (hinv : SiftdownInv l newitem pos)
    (hge : 0 < pos →
      (hget l (parentIdx pos)).priority_rank ≤ newitem.priority_rank) :
    IsHeap (l.set pos newitem) := by
  obtain ⟨ha, hb, hc⟩ := hinv
  intro i h0i hil
  rw [List.length_set] at hil
  by_cases hipos : i = pos
  · subst hipos
    have h0p : 0 < i := h0i
    have hplt : parentIdx i < i := parentIdx_lt h0i
    rw [hget_set_eq l i _ hpos, hget_set_ne l i (parentIdx i) _ (by omega)]
    exact hge h0i
  · by_cases hppos : parentIdx i = pos
    · rw [hppos, hget_set_eq l pos _ hpos, hget_set_ne l pos i _ (by omega)]
      exact hb i h0i hil hppos
    · rw [hget_set_ne l pos (parentIdx i) _ (by omega),
        hget_set_ne l pos i _ (by omega)]
      exact ha i h0i hil hipos hppos

/-- `_siftdown` started at a hole satisfying the invariant produces a heap
(all entry points use `startpos = 0`). -/
theorem siftdown_isHeap :
    ∀ (pos : Nat) (l : List PrioritizedEmail) (newitem : PrioritizedEmail),
      pos < l.length → SiftdownInv l newitem pos →
      IsHeap (siftdown l newitem 0 pos) := by
  intro pos
  induction pos using Nat.strong_induction_on with
  | _ pos ih =>
    intro l newitem hpos hinv
    unfold siftdown
    split
    · rename_i h0
      split
      · rename_i hlt
        have hplt : parentIdx pos < pos := parentIdx_lt h0
        have hlt' : newitem.priority_rank < (hget l (parentIdx pos)).priority_rank := by
          simpa [peLt] using hlt
        exact ih (parentIdx pos) hplt (l.set pos (hget l (parentIdx pos))) newitem
          (by rw [List.length_set]; omega)
          (siftdownInv_step l newitem pos h0 hpos hlt' hinv)
      · rename_i hnlt
        have hge : (hget l (parentIdx pos)).priority_rank ≤ newitem.priority_rank := by
          simp only [peLt, decide_eq_true_eq] at hnlt
          omega
        exact isHeap_set_exit l newitem pos hpos hinv (fun _ => hge)
    · rename_i h0
      have hpos0 : pos = 0 := by omega
      subst hpos0
      exact isHeap_set_exit l newitem 0 hpos hinv (by omega)

/-- The invariant holds at `heappush`'s starting hole (the appended slot). -/
theorem siftdownInv_push (l : List PrioritizedEmail) (item : PrioritizedEmail)
    (hheap : IsHeap l) : SiftdownInv (l ++ [item]) item l.length := by
  refine ⟨?_, ?_, ?_⟩
  · intro i h0i hil hip hpp
    rw [List.length_append, List.length_singleton] at hil
    have hi : i < l.length := by omega
    have hp : parentIdx i < l.length := by
      have := parentIdx_lt h0i
      omega
    rw [hget_append_lt l item i hi, hget_append_lt l item (parentIdx i) hp]
    exact hheap i h0i hi
  · intro c h0c hcl hpc
    rw [List.length_append, List.length_singleton] at hcl
    have := parentIdx_lt h0c
    omega
  · intro c h0c hcl hpc h0p
    rw [List.length_append, List.length_singleton] at hcl
    have := parentIdx_lt h0c
    omega

/-- `heappush` preserves the heap invariant. -/
theorem isHeap_heappush (l : List PrioritizedEmail) (item : PrioritizedEmail)
    (h : IsHeap l) : IsHeap (heappush l item) := by
  unfold heappush
  exact siftdown_isHeap l.length (l ++ [item]) item
    (by rw [List.length_append, List.length_singleton]; omega)
    (siftdownInv_push l item h)

theorem minChild_gt (l : List PrioritizedEmail) (pos : Nat) : pos < minChild l pos := by
  unfold minChild
  split <;> omega

theorem minChild_lt_len (l : List PrioritizedEmail) (pos : Nat)
    (h : 2 * pos + 1 < l.length) : minChild l pos < l.length := by
  unfold minChild
  split
  · rename_i hcond
    simp only [Bool.and_eq_true, decide_eq_true_eq] at hcond
    exact hcond.1
  · exact h

theorem parentIdx_minChild (l : List PrioritizedEmail) (pos : Nat) :
    parentIdx (minChild l pos) = pos := by
  unfold minChild parentIdx
  split <;> omega

/-- The chosen child is not above any in-range child of the hole. -/
theorem minChild_min (l : List PrioritizedEmail) (pos : Nat)
    (h : 2 * pos + 1 < l.length) :
    ∀ s, 0 < s → s < l.length → parentIdx s = pos →
      (hget l (minChild l pos)).priority_rank ≤ (hget l s).priority_rank := by
  intro s h0s hsl hps
  have hs : s = 2 * pos + 1 ∨ s = 2 * pos + 2 := (parentIdx_eq_iff h0s).mp hps
  unfold minChild
  split
  · rename_i hcond
    simp only [Bool.and_eq_true, Bool.not_eq_true', decide_eq_true_eq] at hcond
    have hle : (hget l (2 * pos + 2)).priority_rank ≤ (hget l (2 * pos + 1)).priority_rank := by
      have := hcond.2
      simp only [peLt, decide_eq_false_iff_not] at this
      omega
    rcases hs with hs | hs <;> subst hs
    · exact hle
    · exact le_refl _
  · rename_i hcond
    simp only [Bool.and_eq_true, Bool.not_eq_true', decide_eq_true_eq, not_and] at hcond
    rcases hs with hs | hs <;> subst hs
    · exact le_refl _
    · -- the right child exists (s < len) but was not chosen, so left < right
      have hlt : (hget l (2 * pos + 1)).priority_rank < (hget l (2 * pos + 2)).priority_rank := by
        have := hcond hsl
        simp only [peLt, Bool.not_eq_false, decide_eq_true_eq] at this
        omega
      omega

/-- Loop invariant of `_siftup` (bubble-down) with the hole at `pos`:
(A) the heap shape holds away from the hole; (B) the hole's parent value is
below every child of the hole. -/
def SiftupInv (l : List PrioritizedEmail) (pos : Nat) : Prop :=
  (∀ i, 0 < i → i < l.length → i ≠ pos → parentIdx i ≠ pos →
     (hget l (parentIdx i)).priority_rank ≤ (hget l i).priority_rank) ∧
  (∀ c, 0 < c → c < l.length → parentIdx c = pos → 0 < pos →
     (hget l (parentIdx pos)).priority_rank ≤ (hget l c).priority_rank)

/-- One bubble-down move (into the chosen child) preserves the `_siftup`
invariant. -/
theorem siftupInv_step (l : List PrioritizedEmail) (pos : Nat)
    (hpos : pos < l.length) (hchild : 2 * pos + 1 < l.length)
    (hinv : SiftupInv l pos) :
    SiftupInv (l.set pos (hget l (minChild l pos))) (minChild l pos) := by
  obtain ⟨hA, hB⟩ := hinv
  have hcgt : pos < minChild l pos := minChild_gt l pos
  have hcl : minChild l pos < l.length := minChild_lt_len l pos hchild
  have hpc : parentIdx (minChild l pos) = pos := parentIdx_minChild l pos
  have hmin := minChild_min l pos hchild
  refine ⟨?_, ?_⟩
  · intro i h0i hil hic hpic
    rw [List.length_set] at hil
    by_cases hipos : i = pos
    · subst hipos
      -- 0 < i means the hole is not the root here
      have h0p : 0 < i := h0i
      have hplt : parentIdx i < i := parentIdx_lt h0i
      rw [hget_set_eq l i _ hpos, hget_set_ne l i (parentIdx i) _ (by omega)]
      exact hB (minChild l i) (by omega) hcl hpc h0p
    · by_cases hppos : parentIdx i = pos
      · -- sibling of the chosen child
        rw [hppos, hget_set_eq l pos _ hpos, hget_set_ne l pos i _ (by omega)]
        exact hmin i h0i hil hppos
      · rw [hget_set_ne l pos (parentIdx i) _ (by omega),
          hget_set_ne l pos i _ (by omega)]
        exact hA i h0i hil hipos hppos
  · intro d h0d hdl hpd h0c
    rw [List.length_set] at hdl
    rw [hpc]
    have hdc : minChild l pos < d := by
      have := parentIdx_lt h0d
      omega
    rw [hget_set_eq l pos _ hpos, hget_set_ne l pos d _ (by omega)]
    have := hA d h0d hdl (by omega) (by rw [hpd]; omega)
    rw [hpd] at this
    exact this

/-- `_siftup` started at a hole satisfying the invariant produces a heap. -/
theorem siftup_isHeap :
    ∀ (k : Nat) (l : List PrioritizedEmail) (newitem : PrioritizedEmail) (pos : Nat),
      l.length - pos ≤ k → pos < l.length → SiftupInv l pos →
      IsHeap (siftup l newitem 0 pos) := by
  intro k
  induction k with
  | zero =>
    intro l newitem pos hk hpos hinv
    omega
  | succ k ih =>
    intro l newitem pos hk hpos hinv
    unfold siftup
    split
    · rename_i hchild
      have hcgt : pos < minChild l pos := minChild_gt l pos
      have hcl : minChild l pos < l.length := minChild_lt_len l pos hchild
      exact ih (l.set pos (hget l (minChild l pos))) newitem (minChild l pos)
        (by rw [List.length_set]; omega)
        (by rw [List.length_set]; omega)
        (siftupInv_step l pos hpos hchild hinv)
    · rename_i hleaf
      apply siftdown_isHeap pos (l.set pos newitem) newitem
        (by rw [List.length_set]; omega)
      obtain ⟨hA, hB⟩ := hinv
      refine ⟨?_, ?_, ?_⟩
      · intro i h0i hil hip hpp
        rw [List.length_set] at hil
        rw [hget_set_ne l pos (parentIdx i) _ (by omega),
          hget_set_ne l pos i _ (by omega)]
        exact hA i h0i hil hip hpp
      · intro c h0c hcl hpc
        rw [List.length_set] at hcl
        have := (parentIdx_eq_iff h0c).mp hpc
        omega
      · intro c h0c hcl hpc h0p
        rw [List.length_set] at hcl
        have := (parentIdx_eq_iff h0c).mp hpc
        omega

/-- `heappop` on a heap returns the root and leaves a heap. -/
theorem isHeap_heappop (l : List PrioritizedEmail) (h : IsHeap l)
    (j : PrioritizedEmail) (l' : List PrioritizedEmail)
    (hp : heappop l = some (j, l')) : IsHeap l' ∧ j = hget l 0 := by
  cases l with
  | nil => simp [heappop] at hp
  | cons a rest =>
    simp only [heappop] at hp
    split at hp
    · rename_i hemp
      -- singleton: the popped last element is the root
      cases hp
      cases rest with
      | nil => exact ⟨by intro i h0 hl; simp at hl, rfl⟩
      | cons b r2 => simp at hemp
    · rename_i hemp
      cases hp
      have hlen : (a :: rest).dropLast.length = rest.length := by simp
      have hlen1 : 0 < (a :: rest).dropLast.length := by
        rw [hlen]
        cases rest with
        | nil => simp at hemp
        | cons b r2 => simp
      constructor
      · apply siftup_isHeap ((a :: rest).dropLast.length + 1)
          ((a :: rest).dropLast.set 0 (hget (a :: rest) ((a :: rest).length - 1)))
          (hget (a :: rest) ((a :: rest).length - 1)) 0
          (by rw [List.length_set]; omega)
          (by rw [List.length_set]; omega)
        refine ⟨?_, ?_⟩
        · intro i h0i hil hip hpp
          rw [List.length_set] at hil
          have hpi : parentIdx i < i := parentIdx_lt h0i
          rw [hget_set_ne _ 0 i _ (by omega), hget_set_ne _ 0 (parentIdx i) _ (by omega)]
          have hidl : i < (a :: rest).length - 1 := by
            simp only [List.length_dropLast] at hil
            exact hil
          rw [hget_dropLast _ i hidl, hget_dropLast _ (parentIdx i) (by omega)]
          exact h i h0i (by simp at hidl ⊢; omega)
        · intro c h0c hcl hpc h0p
          omega
      · show hget (a :: rest).dropLast 0 = hget (a :: rest) 0
        apply hget_dropLast
        simp only [List.length_cons]
        omega

/-- In a heap the root is a minimum. -/
theorem isHeap_root_min (l : List PrioritizedEmail) (h : IsHeap l) :
    ∀ i, i < l.length → (hget l 0).priority_rank ≤ (hget l i).priority_rank := by
  intro i
  induction i using Nat.strong_induction_on with
  | _ i ih =>
    intro hil
    cases Nat.eq_zero_or_pos i with
    | inl h0 => subst h0; exact le_refl _
    | inr h0 =>
      have hp := parentIdx_lt h0
      exact le_trans (ih (parentIdx i) hp (by omega)) (h i h0 hil)

theorem heappop_isSome (l : List PrioritizedEmail) (h : l ≠ []) :
    ∃ j l', heappop l = some (j, l') := by
  cases l with
  | nil => exact absurd rfl h
  | cons a rest =>
    simp only [heappop]
    split
    · exact ⟨_, _, rfl⟩
    · exact ⟨_, _, rfl⟩

/-- Queue states reachable through the `EmailPriorityQueue` interface. -/
inductive QReachable : EmailPriorityQueue → Prop
  | empty : QReachable ⟨[]⟩
  | push (q : EmailPriorityQueue) (email_id : Nat) (urgency : String)
      (data : Option String) : QReachable q → QReachable (q.push email_id urgency data)
  | pop (q : EmailPriorityQueue) (j : PrioritizedEmail) (q' : EmailPriorityQueue) :
      QReachable q → q.pop = some (j, q') → QReachable q'

/-- Every reachable queue state is a binary heap. -/
theorem qreachable_isHeap {q : EmailPriorityQueue} (hq : QReachable q) :
    IsHeap q.heap := by
  induction hq with
  | empty => intro i h0 hl; simp at hl
  | push q email_id urgency data hq ih => exact isHeap_heappush _ _ ih
  | pop q j q' hq hp ih =>
    unfold EmailPriorityQueue.pop at hp
    cases hpq : heappop q.heap with
    | none => rw [hpq] at hp; simp at hp
    | some r =>
      rw [hpq] at hp
      simp only [Option.map_some'] at hp
      cases hp
      exact (isHeap_heappop q.heap ih r.1 r.2 (by rw [hpq])).1

theorem hget_eq_get (l : List PrioritizedEmail) (i : Nat) (h : i < l.length) :
    hget l i = l.get ⟨i, h⟩ := by
  induction l generalizing i with
  | nil => simp at h
  | cons a rest ih =>
    cases i with
    | zero => rfl
    | succ n => exact ih n (by simpa using h)

/-- C5: on every reachable queue state containing a job pushed with the
`'Urgent'` class (rank 0) and a job pushed with the normal class (rank 1),
`pop()` returns an urgent-class job — urgent jobs are served before normal
ones regardless of arrival order. -/
theorem urgent_popped_before_normal :
    ∀ (q : EmailPriorityQueue), QReachable q →
      ∀ (ju jn : PrioritizedEmail), ju ∈ q.heap → jn ∈ q.heap →
        ju.priority_rank = rankOf "Urgent" →
        jn.priority_rank = rankOf "Not urgent" →
        ∃ (j : PrioritizedEmail) (q' : EmailPriorityQueue),
          q.pop = some (j, q') ∧ j.priority_rank = rankOf "Urgent" := by
  intro q hq ju jn hju hjn hru hrn
  have hheap := qreachable_isHeap hq
  have hr0 : rankOf "Urgent" = 0 := by decide
  have hne : q.heap ≠ [] := by
    intro hc
    rw [hc] at hju
    simp at hju
  obtain ⟨⟨i, hi⟩, hgi⟩ := List.mem_iff_get.mp hju
  have hroot : (hget q.heap 0).priority_rank = 0 := by
    have hle := isHeap_root_min q.heap hheap i hi
    rw [hget_eq_get q.heap i hi, hgi, hru, hr0] at hle
    omega
  obtain ⟨j0, l2, hp⟩ := heappop_isSome q.heap hne
  have hj0 := (isHeap_heappop q.heap hheap j0 l2 hp).2
  refine ⟨j0, ⟨l2⟩, ?_, ?_⟩
  · unfold EmailPriorityQueue.pop
    rw [hp]
    rfl
  · rw [hj0, hroot, hr0]

/-- C5 witness: push a normal job then an urgent one — the first pop returns
the urgent job (rank 0). -/
theorem urgent_popped_before_normal_witness :
    ∃ (j : PrioritizedEmail) (q' : EmailPriorityQueue),
      ((EmailPriorityQueue.push ⟨[]⟩ 1 "Not urgent" none).push 2 "Urgent" none).pop =
        some (j, q') ∧ j.priority_rank = rankOf "Urgent" := by
  have hval : (EmailPriorityQueue.push ⟨[]⟩ 1 "Not urgent" none).push 2 "Urgent" none =
      ⟨[⟨0, 2, none⟩, ⟨1, 1, none⟩]⟩ := by
    simp [EmailPriorityQueue.push, heappush, siftdown, hget, parentIdx, peLt, rankOf]
  apply urgent_popped_before_normal _
    (QReachable.push _ 2 "Urgent" none
      (QReachable.push _ 1 "Not urgent" none QReachable.empty))
    ⟨0, 2, none⟩ ⟨1, 1, none⟩
  · rw [hval]
    simp
  · rw [hval]
    simp
  · decide
  · decide

end Spec2Proof
